import Mathlib

set_option maxHeartbeats 2000000
set_option linter.unusedVariables false

/-!
Shallow embedding of `wikipedia_mcp/wikipedia_client.py` (the locale
resolution engine and the `WikipediaClient` content operations), together
with theorems settling the specification's claims about it.

Python strings are modelled as Lean `String`; the string operations used by
the source (`strip`, `upper`, `lower`, `title`, `split`, `find`, slicing)
are modelled with ASCII semantics, which agree with Python on every input
these claims exercise.
-/

namespace WikipediaMcp

/-! ### Python string primitives -/

/-- Python whitespace (ASCII): the characters `str.strip()` removes. -/
def isPySpace (c : Char) : Bool :=
  c = ' ' || c = '\t' || c = '\n' || c = '\r' || c = '\x0b' || c = '\x0c'

/-- Python `str.strip()`: drop leading and trailing whitespace. -/
def pyStrip (s : String) : String :=
  ⟨((s.data.dropWhile isPySpace).reverse.dropWhile isPySpace).reverse⟩

/-- Python `str.upper()` (ASCII). -/
def pyUpper (s : String) : String := ⟨s.data.map Char.toUpper⟩

/-- Python `str.lower()` (ASCII). -/
def pyLower (s : String) : String := ⟨s.data.map Char.toLower⟩

/-- Worker for `pyTitle`: the flag records whether the previous character
was alphabetic. -/
def pyTitleGo : Bool → List Char → List Char
  | _, [] => []
  | prevAlpha, c :: cs =>
    if c.isAlpha then
      (if prevAlpha then c.toLower else c.toUpper) :: pyTitleGo true cs
    else
      c :: pyTitleGo false cs

/-- Python `str.title()` (ASCII): first letter of each word upper-cased,
the rest lower-cased; word boundaries are non-alphabetic characters. -/
def pyTitle (s : String) : String := ⟨pyTitleGo false s.data⟩

/-- Python slice `l[a:b]` (step 1): negative indices count from the end,
out-of-range indices are clamped (`max 0 (n + i)` resp. `min i n`,
written with explicit conditionals). -/
def pySlice (l : List α) (a b : Int) : List α :=
  let n : Int := l.length
  let clamp : Int → Nat := fun i =>
    (if i < 0 then (if 0 ≤ n + i then n + i else 0)
     else (if i ≤ n then i else n)).toNat
  (l.take (clamp b)).drop (clamp a)

/-- Python slice `s[a:b]` on a string. -/
def pyStrSlice (s : String) (a b : Int) : String := ⟨pySlice s.data a b⟩

/-- Worker for `pyFind`: index of the first occurrence of `needle`. -/
def pyFindAux : List Char → List Char → Nat → Option Nat
  | [], needle, i => if needle = [] then some i else none
  | c :: t, needle, i =>
    if needle.isPrefixOf (c :: t) then some i else pyFindAux t needle (i + 1)

/-- Python `haystack.find(needle)`: first index, or `-1` when absent. -/
def pyFind (hay needle : String) : Int :=
  match pyFindAux hay.data needle.data 0 with
  | some i => (i : Int)
  | none => -1

/-- Worker for `pySplitDot`: split at each `'.'`, keeping empty pieces. -/
def splitDotAux : List Char → List Char → List (List Char)
  | [], acc => [acc.reverse]
  | c :: rest, acc =>
    if c = '.' then acc.reverse :: splitDotAux rest []
    else splitDotAux rest (c :: acc)

/-- Python `text.split(".")`: the pieces between the periods, empty
pieces included (`"a.b.".split(".") == ["a", "b", ""]`). -/
def pySplitDot (s : String) : List String :=
  (splitDotAux s.data []).map (fun l => ⟨l⟩)

/-- Worker for `pyReplaceCategory`: drop every (non-overlapping,
left-to-right) occurrence of the nine characters `"Category:"`. -/
def replCatAux : List Char → List Char
  | 'C' :: 'a' :: 't' :: 'e' :: 'g' :: 'o' :: 'r' :: 'y' :: ':' :: rest =>
    replCatAux rest
  | c :: rest => c :: replCatAux rest
  | [] => []

/-- Python `s.replace("Category:", "")` as used by `get_related_topics`. -/
def pyReplaceCategory (s : String) : String := ⟨replCatAux s.data⟩

/-! ### Python values and parameter dictionaries

Request parameter dictionaries hold heterogeneous values (strings and
integers in this program, plus booleans/numbers/None in API responses);
`PyVal` is their sum. A dictionary is an insertion-ordered association
list with unique keys, as in CPython. -/

inductive PyVal where
  | str (s : String)
  | int (n : Int)
  | bool (b : Bool)
  | num (repr : String)
  | null
deriving DecidableEq

/-- Parameter dictionaries: insertion-ordered key/value lists. -/
abbrev Params := List (String × PyVal)

/-- First value stored under `k`, if any. -/
def dictGet (d : Params) (k : String) : Option PyVal :=
  match d with
  | [] => none
  | (k', v) :: t => if k' = k then some v else dictGet t k

/-- Python `d[k] = v` on a dict: overwrite in place when the key exists,
otherwise append at the end (insertion order). -/
def dictSet (d : Params) (k : String) (v : PyVal) : Params :=
  match d with
  | [] => [(k, v)]
  | (k', v') :: t => if k' = k then (k, v) :: t else (k', v') :: dictSet t k v

/-! ### Locale tables (source lines 20–258) -/

/-- `WikipediaClient.LANGUAGE_VARIANTS`: variant code → base language. -/
def LANGUAGE_VARIANTS : List (String × String) := [
  ("zh-hans", "zh"),
  ("zh-hant", "zh"),
  ("zh-tw", "zh"),
  ("zh-hk", "zh"),
  ("zh-mo", "zh"),
  ("zh-cn", "zh"),
  ("zh-sg", "zh"),
  ("zh-my", "zh"),
  ("sr-latn", "sr"),
  ("sr-cyrl", "sr"),
  ("no", "nb"),
  ("ku-latn", "ku"),
  ("ku-arab", "ku")
]

/-- `WikipediaClient.COUNTRY_TO_LANGUAGE`: country/locale → language code. -/
def COUNTRY_TO_LANGUAGE : List (String × String) := [
  ("US", "en"),
  ("USA", "en"),
  ("United States", "en"),
  ("UK", "en"),
  ("GB", "en"),
  ("United Kingdom", "en"),
  ("CA", "en"),
  ("Canada", "en"),
  ("AU", "en"),
  ("Australia", "en"),
  ("NZ", "en"),
  ("New Zealand", "en"),
  ("IE", "en"),
  ("Ireland", "en"),
  ("ZA", "en"),
  ("South Africa", "en"),
  ("CN", "zh-hans"),
  ("China", "zh-hans"),
  ("TW", "zh-tw"),
  ("Taiwan", "zh-tw"),
  ("HK", "zh-hk"),
  ("Hong Kong", "zh-hk"),
  ("MO", "zh-mo"),
  ("Macau", "zh-mo"),
  ("SG", "zh-sg"),
  ("Singapore", "zh-sg"),
  ("MY", "zh-my"),
  ("Malaysia", "zh-my"),
  ("DE", "de"),
  ("Germany", "de"),
  ("FR", "fr"),
  ("France", "fr"),
  ("ES", "es"),
  ("Spain", "es"),
  ("IT", "it"),
  ("Italy", "it"),
  ("PT", "pt"),
  ("Portugal", "pt"),
  ("NL", "nl"),
  ("Netherlands", "nl"),
  ("PL", "pl"),
  ("Poland", "pl"),
  ("RU", "ru"),
  ("Russia", "ru"),
  ("UA", "uk"),
  ("Ukraine", "uk"),
  ("TR", "tr"),
  ("Turkey", "tr"),
  ("GR", "el"),
  ("Greece", "el"),
  ("SE", "sv"),
  ("Sweden", "sv"),
  ("NO", "no"),
  ("Norway", "no"),
  ("DK", "da"),
  ("Denmark", "da"),
  ("FI", "fi"),
  ("Finland", "fi"),
  ("IS", "is"),
  ("Iceland", "is"),
  ("CZ", "cs"),
  ("Czech Republic", "cs"),
  ("SK", "sk"),
  ("Slovakia", "sk"),
  ("HU", "hu"),
  ("Hungary", "hu"),
  ("RO", "ro"),
  ("Romania", "ro"),
  ("BG", "bg"),
  ("Bulgaria", "bg"),
  ("HR", "hr"),
  ("Croatia", "hr"),
  ("SI", "sl"),
  ("Slovenia", "sl"),
  ("RS", "sr"),
  ("Serbia", "sr"),
  ("BA", "bs"),
  ("Bosnia and Herzegovina", "bs"),
  ("MK", "mk"),
  ("Macedonia", "mk"),
  ("AL", "sq"),
  ("Albania", "sq"),
  ("MT", "mt"),
  ("Malta", "mt"),
  ("JP", "ja"),
  ("Japan", "ja"),
  ("KR", "ko"),
  ("South Korea", "ko"),
  ("IN", "hi"),
  ("India", "hi"),
  ("TH", "th"),
  ("Thailand", "th"),
  ("VN", "vi"),
  ("Vietnam", "vi"),
  ("ID", "id"),
  ("Indonesia", "id"),
  ("PH", "tl"),
  ("Philippines", "tl"),
  ("BD", "bn"),
  ("Bangladesh", "bn"),
  ("PK", "ur"),
  ("Pakistan", "ur"),
  ("LK", "si"),
  ("Sri Lanka", "si"),
  ("MM", "my"),
  ("Myanmar", "my"),
  ("KH", "km"),
  ("Cambodia", "km"),
  ("LA", "lo"),
  ("Laos", "lo"),
  ("MN", "mn"),
  ("Mongolia", "mn"),
  ("KZ", "kk"),
  ("Kazakhstan", "kk"),
  ("UZ", "uz"),
  ("Uzbekistan", "uz"),
  ("AF", "fa"),
  ("Afghanistan", "fa"),
  ("IR", "fa"),
  ("Iran", "fa"),
  ("SA", "ar"),
  ("Saudi Arabia", "ar"),
  ("AE", "ar"),
  ("UAE", "ar"),
  ("EG", "ar"),
  ("Egypt", "ar"),
  ("IQ", "ar"),
  ("Iraq", "ar"),
  ("SY", "ar"),
  ("Syria", "ar"),
  ("JO", "ar"),
  ("Jordan", "ar"),
  ("LB", "ar"),
  ("Lebanon", "ar"),
  ("IL", "he"),
  ("Israel", "he"),
  ("MA", "ar"),
  ("Morocco", "ar"),
  ("DZ", "ar"),
  ("Algeria", "ar"),
  ("TN", "ar"),
  ("Tunisia", "ar"),
  ("LY", "ar"),
  ("Libya", "ar"),
  ("SD", "ar"),
  ("Sudan", "ar"),
  ("ET", "am"),
  ("Ethiopia", "am"),
  ("KE", "sw"),
  ("Kenya", "sw"),
  ("TZ", "sw"),
  ("Tanzania", "sw"),
  ("NG", "ha"),
  ("Nigeria", "ha"),
  ("GH", "en"),
  ("Ghana", "en"),
  ("MX", "es"),
  ("Mexico", "es"),
  ("AR", "es"),
  ("Argentina", "es"),
  ("CO", "es"),
  ("Colombia", "es"),
  ("VE", "es"),
  ("Venezuela", "es"),
  ("PE", "es"),
  ("Peru", "es"),
  ("CL", "es"),
  ("Chile", "es"),
  ("EC", "es"),
  ("Ecuador", "es"),
  ("BO", "es"),
  ("Bolivia", "es"),
  ("PY", "es"),
  ("Paraguay", "es"),
  ("UY", "es"),
  ("Uruguay", "es"),
  ("CR", "es"),
  ("Costa Rica", "es"),
  ("PA", "es"),
  ("Panama", "es"),
  ("GT", "es"),
  ("Guatemala", "es"),
  ("HN", "es"),
  ("Honduras", "es"),
  ("SV", "es"),
  ("El Salvador", "es"),
  ("NI", "es"),
  ("Nicaragua", "es"),
  ("CU", "es"),
  ("Cuba", "es"),
  ("DO", "es"),
  ("Dominican Republic", "es"),
  ("BR", "pt"),
  ("Brazil", "pt"),
  ("BY", "be"),
  ("Belarus", "be"),
  ("EE", "et"),
  ("Estonia", "et"),
  ("LV", "lv"),
  ("Latvia", "lv"),
  ("LT", "lt"),
  ("Lithuania", "lt"),
  ("GE", "ka"),
  ("Georgia", "ka"),
  ("AM", "hy"),
  ("Armenia", "hy"),
  ("AZ", "az"),
  ("Azerbaijan", "az")
]

/-- First value bound to `k` in a string table (Python `tbl[k]` /
`k in tbl`; keys are unique, so first match is the dict's binding). -/
def tblGet (tbl : List (String × String)) (k : String) : Option String :=
  match tbl with
  | [] => none
  | (k', v) :: t => if k' = k then some v else tblGet t k

/-! ### Locale resolver (source lines 320–372) -/

/-- The `ValueError` raised for an unsupported country. -/
structure UnsupportedLocale where
  message : String
deriving DecidableEq

/-- `WikipediaClient._resolve_country_to_language` (lines 320–357). -/
def resolve_country_to_language (country : String) :
    Except UnsupportedLocale String :=
  let country_upper := pyStrip (pyUpper country)
  let country_title := pyStrip (pyTitle country)
  match tblGet COUNTRY_TO_LANGUAGE country_upper with
  | some v => .ok v
  | none =>
    match tblGet COUNTRY_TO_LANGUAGE country_title with
    | some v => .ok v
    | none =>
      match tblGet COUNTRY_TO_LANGUAGE country with
      | some v => .ok v
      | none =>
        let available := COUNTRY_TO_LANGUAGE.map Prod.fst
        let country_codes := (available.filter (fun c => c.length ≤ 3)).take 10
        .error ⟨"Unsupported country/locale: '" ++ country ++
          "'. Supported country codes include: " ++
          String.intercalate ", " country_codes ++
          ". Use --language parameter for direct language codes instead."⟩

/-- `WikipediaClient._parse_language_variant` (lines 359–372). -/
def parse_language_variant (language : String) : String × Option String :=
  match tblGet LANGUAGE_VARIANTS language with
  | some base_language => (base_language, some language)
  | none => (language, none)

/-! ### Client construction (source lines 260–318) -/

/-- `wikipedia_mcp.__version__`. -/
def wikipedia_mcp_version : String := "1.7.0"

/-- The state a `WikipediaClient` instance fixes at construction. -/
structure WikipediaClient where
  original_input : String
  input_type : String
  resolved_language : String
  original_language : String
  enable_cache : Bool
  access_token : Option String
  user_agent : String
  base_language : String
  language_variant : Option String
  api_url : String

/-- `WikipediaClient.__init__` (lines 260–306): resolves the country when a
truthy `country` is given (Python `if country:` is false for `None` and for
the empty string), otherwise takes the language as given; then splits the
resolved tag into base language and variant.  The only exception it can
raise is the resolver's `ValueError`, modelled as the `.error` case. -/
def WikipediaClient.init (language : String) (country : Option String)
    (enable_cache : Bool) (access_token : Option String) :
    Except UnsupportedLocale WikipediaClient :=
  let build (oi it rl : String) : WikipediaClient :=
    let bv := parse_language_variant rl
    { original_input := oi
      input_type := it
      resolved_language := rl
      original_language := rl
      enable_cache := enable_cache
      access_token := access_token
      user_agent := "WikipediaMCPServer/" ++ wikipedia_mcp_version ++
        " (https://github.com/rudra-ravi/wikipedia-mcp)"
      base_language := bv.1
      language_variant := bv.2
      api_url := "https://" ++ bv.1 ++ ".wikipedia.org/w/api.php" }
  match country with
  | some c =>
    if c = "" then .ok (build language "language" language)
    else
      match resolve_country_to_language c with
      | .ok resolved => .ok (build c "country" resolved)
      | .error e => .error e
  | none => .ok (build language "language" language)

/-- `WikipediaClient._add_variant_to_params` (lines 387–399): when the
client carries a variant, return a copy of `params` with the `variant`
key set; otherwise return `params` unchanged. -/
def add_variant_to_params (self : WikipediaClient) (params : Params) : Params :=
  match self.language_variant with
  | some v => dictSet params "variant" (.str v)
  | none => params

/-! ### Raw REST requests: search (lines 443–543) and coordinates (867–956) -/

/-- One outbound `requests.get` call: target URL and query parameters. -/
structure ApiRequest where
  url : String
  params : Params
deriving DecidableEq

/-- One entry of the API's `query.search` list; every field is optional,
the code reads them with `.get` and defaults. -/
structure SearchItem where
  title : Option String
  snippet : Option String
  pageid : Option Int
  wordcount : Option Int
  timestamp : Option String

/-- One entry of the list `search` returns. -/
structure SearchResult where
  title : String
  snippet : String
  pageid : Int
  wordcount : Int
  timestamp : String

/-- Outcome of `requests.get(...)` plus `.json()` for the search endpoint:
a raised exception (timeout, connection, HTTP, JSON decode, unexpected), a
body with an `error` member, or a body with the `query.search` list. -/
inductive SearchOutcome where
  | exn (msg : String)
  | errorField (code info : String)
  | ok (items : List SearchItem)


/-- The request `WikipediaClient.search` transmits after validation, or
`none` when the query is empty/whitespace and no request is issued. -/
def search_request (self : WikipediaClient) (query : String) (limit : Int) :
    Option ApiRequest :=
  if pyStrip query = "" then none
  else
    let trimmed_query := pyStrip query
    let trimmed_query :=
      if trimmed_query.length > 300 then pyStrSlice trimmed_query 0 300
      else trimmed_query
    let limit := if limit ≤ 0 then 10 else if limit > 500 then 500 else limit
    some ⟨self.api_url,
      add_variant_to_params self
        [("action", .str "query"), ("format", .str "json"),
         ("list", .str "search"), ("utf8", .int 1),
         ("srsearch", .str trimmed_query), ("srlimit", .int limit)]⟩

/-- `WikipediaClient.search`: the result list together with the number of
outbound requests the call issued (0 or 1).  A result item with a missing
or empty title is skipped (`if not title: continue`); every error outcome
becomes the empty list. -/
def search (self : WikipediaClient) (net : ApiRequest → SearchOutcome)
    (query : String) (limit : Int) : List SearchResult × Nat :=
  match search_request self query limit with
  | none => ([], 0)
  | some req =>
    match net req with
    | .exn _ => ([], 1)
    | .errorField _ _ => ([], 1)
    | .ok items =>
      (items.filterMap (fun item =>
        match item.title with
        | some t =>
          if t = "" then none
          else some
            { title := t
              snippet := item.snippet.getD ""
              pageid := item.pageid.getD 0
              wordcount := item.wordcount.getD 0
              timestamp := item.timestamp.getD "" }
        | none => none), 1)

/-- One raw entry of a page's `coordinates` list (fields read with `.get`;
`ctype`, `cname`, `cregion`, `ccountry` stand for the JSON keys `type`,
`name`, `region`, `country`). -/
structure RawCoord where
  lat : Option PyVal
  lon : Option PyVal
  primary : Option PyVal
  globe : Option PyVal
  ctype : Option PyVal
  cname : Option PyVal
  cregion : Option PyVal
  ccountry : Option PyVal

/-- One processed coordinates entry, defaults applied. -/
structure ProcCoord where
  latitude : PyVal
  longitude : PyVal
  primary : PyVal
  globe : PyVal
  ctype : PyVal
  cname : PyVal
  cregion : PyVal
  ccountry : PyVal

/-- The coordinate-processing loop body of `get_coordinates`. -/
def process_coord (c : RawCoord) : ProcCoord :=
  { latitude := c.lat.getD .null
    longitude := c.lon.getD .null
    primary := c.primary.getD (.bool false)
    globe := c.globe.getD (.str "earth")
    ctype := c.ctype.getD (.str "")
    cname := c.cname.getD (.str "")
    cregion := c.cregion.getD (.str "")
    ccountry := c.ccountry.getD (.str "") }

/-- One value of the API's `query.pages` object. -/
structure CoordPage where
  pageid : Option Int
  title : Option String
  coordinates : Option (List RawCoord)

/-- Outcome of the coordinates request: a raised exception, or a body whose
`query.pages` object is the given (possibly empty) dict. -/
inductive CoordOutcome where
  | exn (msg : String)
  | body (pages : List (String × CoordPage))


/-- The structured dict `get_coordinates` returns.  `failed t e` is
`{title: t, coordinates: None, exists: False, error: e}` (the shape shared
by the exception, no-page and page-missing branches); `noCoords` carries
`exists: True`, `coordinates: None` and the explanatory message; `ok`
carries the processed coordinate list with `error: None`. -/
inductive CoordResult where
  | failed (title : String) (error : String)
  | noCoords (title : String) (pageid : Option Int)
  | ok (title : String) (pageid : Option Int) (coordinates : List ProcCoord)

/-- The request `get_coordinates` issues. -/
def get_coordinates_request (self : WikipediaClient) (title : String) : ApiRequest :=
  ⟨self.api_url,
    add_variant_to_params self
      [("action", .str "query"), ("format", .str "json"),
       ("prop", .str "coordinates"), ("titles", .str title)]⟩

/-- `WikipediaClient.get_coordinates` (lines 867–956). -/
def get_coordinates (self : WikipediaClient) (net : ApiRequest → CoordOutcome)
    (title : String) : CoordResult :=
  match net (get_coordinates_request self title) with
  | .exn m => .failed title m
  | .body pages =>
    match pages with
    | [] => .failed title "No page found"
    | (_, page_data) :: _ =>
      if page_data.pageid.getD (-1) < 0 then .failed title "Page does not exist"
      else
        match page_data.coordinates.getD [] with
        | [] => .noCoords (page_data.title.getD title) page_data.pageid
        | cs => .ok (page_data.title.getD title) page_data.pageid (cs.map process_coord)

/-! ### The article-retrieval library boundary (`self.wiki`, lines 301–305)

The eight remaining content operations obtain their data through the
`wikipediaapi` library object, which the client constructs from the user
agent and `base_language` alone and then queries by bare title. -/

/-- A section node of a page's section tree. -/
inductive Sec where
  | mk (title : String) (text : String) (sections : List Sec)


def Sec.title : Sec → String
  | .mk t _ _ => t

def Sec.text : Sec → String
  | .mk _ x _ => x

def Sec.sections : Sec → List Sec
  | .mk _ _ s => s

/-- The fields of an existing page the code reads. -/
structure Page where
  title : String
  pageid : Int
  summary : String
  text : String
  fullurl : String
  sections : List Sec
  categories : List String
  links : List String


/-- What `self.wiki.page(title)` plus `page.exists()` and the subsequent
field accesses amount to: a raised exception, a missing page, or a page. -/
inductive FetchResult where
  | exn (msg : String)
  | missing
  | page (p : Page)


/-- The library side of the world: pages by title. -/
abbrev LibWorld := String → FetchResult

/-- Modelled from the spec: the outbound request of the article-retrieval
library (`wikipediaapi`), whose code is not in this repository.  §1 treats
it as an external collaborator "consumed as: given a base language and a
title, return page existence, summary, full text, sections, links,
categories", and the source hands it only the user agent and
`base_language` at construction (lines 301–305) and the bare title per
call — so its request parameters are a function of those values alone, and
no variant marker ever reaches it. -/
def wikipediaapi_page_request (user_agent language title : String) : ApiRequest :=
  { url := "https://" ++ language ++ ".wikipedia.org/w/api.php"
    params := [("action", .str "query"), ("prop", .str "extracts"),
               ("titles", .str title), ("format", .str "json")] }

/-- The outbound requests a `get_summary` call causes: the library page
fetch for its title. -/
def get_summary_requests (self : WikipediaClient) (title : String) :
    List ApiRequest :=
  [wikipediaapi_page_request self.user_agent self.base_language title]

/-- One node of the nested section dicts `_extract_sections` builds. -/
inductive SectionData where
  | mk (title : String) (level : Nat) (text : String) (sections : List SectionData)


mutual

/-- `WikipediaClient._extract_sections` (lines 700–721), on a list. -/
def extract_sections : List Sec → Nat → List SectionData
  | [], _ => []
  | s :: ss, level => extract_section s level :: extract_sections ss level

/-- `WikipediaClient._extract_sections`, body for one section. -/
def extract_section : Sec → Nat → SectionData
  | .mk t x subs, level => .mk t level x (extract_sections subs (level + 1))

end

/-- The dict `get_article` returns: either the not-found/exception shape
`{title, exists: False, error}` or the full article dict. -/
inductive ArticleResult where
  | notFound (title : String) (error : String)
  | ok (title : String) (pageid : Int) (summary : String) (text : String)
      (url : String) (sections : List SectionData) (categories : List String)
      (links : List String)


/-- `WikipediaClient.get_article` (lines 545–582). -/
def get_article (self : WikipediaClient) (w : LibWorld) (title : String) :
    ArticleResult :=
  match w title with
  | .exn m => .notFound title m
  | .missing => .notFound title "Page does not exist"
  | .page p =>
    .ok p.title p.pageid p.summary p.text p.fullurl
      (extract_sections p.sections 0) p.categories (pySlice p.links 0 100)

/-- `WikipediaClient.get_summary` (lines 584–602). -/
def get_summary (self : WikipediaClient) (w : LibWorld) (title : String) :
    String :=
  match w title with
  | .exn m => "Error retrieving summary for '" ++ title ++ "': " ++ m
  | .missing => "No Wikipedia article found for '" ++ title ++ "'."
  | .page p => p.summary

/-- `WikipediaClient.get_sections` (lines 604–622). -/
def get_sections (self : WikipediaClient) (w : LibWorld) (title : String) :
    List SectionData :=
  match w title with
  | .exn _ => []
  | .missing => []
  | .page p => extract_sections p.sections 0

/-- `WikipediaClient.get_links` (lines 624–642). -/
def get_links (self : WikipediaClient) (w : LibWorld) (title : String) :
    List String :=
  match w title with
  | .exn _ => []
  | .missing => []
  | .page p => p.links

/-- One entry of the list `get_related_topics` returns: a resolvable link
with its truncated summary and URL, or a category (prefix stripped). -/
inductive RelatedTopic where
  | link (title : String) (summary : String) (url : String)
  | category (title : String)
deriving DecidableEq

/-- `type` of a related-topics entry: `true` for the `"link"` kind. -/
def RelatedTopic.isLink : RelatedTopic → Bool
  | .link _ _ _ => true
  | .category _ => false

/-- The 200-character summary truncation of `get_related_topics`. -/
def truncate_summary (s : String) : String :=
  if s.length > 200 then pyStrSlice s 0 200 ++ "..." else s

/-- The link loop of `get_related_topics` (lines 670–685): walk the sliced
link list, appending an entry per existing page; after each iteration stop
once `len(related) >= limit`.  An exception from a link fetch aborts the
whole operation (outer `except`). -/
def related_links_loop (w : LibWorld) (limit : Int) :
    List String → List RelatedTopic → Except String (List RelatedTopic)
  | [], acc => .ok acc
  | l :: ls, acc =>
    match w l with
    | .exn m => .error m
    | .missing =>
      if limit ≤ (acc.length : Int) then .ok acc
      else related_links_loop w limit ls acc
    | .page lp =>
      let acc' := acc ++ [RelatedTopic.link l (truncate_summary lp.summary) lp.fullurl]
      if limit ≤ (acc'.length : Int) then .ok acc'
      else related_links_loop w limit ls acc'

/-- The post-fetch body of `get_related_topics` on an existing page:
the link loop over `links[:limit]` followed by category fill-up. -/
def get_related_topics_page (self : WikipediaClient) (w : LibWorld) (p : Page)
    (limit : Int) : List RelatedTopic :=
  match related_links_loop w limit (pySlice p.links 0 limit) [] with
  | .error _ => []
  | .ok related =>
    let remaining : Int := limit - related.length
    if remaining > 0 then
      related ++ (pySlice p.categories 0 remaining).map
        (fun c => RelatedTopic.category (pyReplaceCategory c))
    else related

/-- `WikipediaClient.get_related_topics` (lines 644–698). -/
def get_related_topics (self : WikipediaClient) (w : LibWorld) (title : String)
    (limit : Int) : List RelatedTopic :=
  match w title with
  | .exn _ => []
  | .missing => []
  | .page p => get_related_topics_page self w p limit

/-- `WikipediaClient.summarize_for_query` (lines 723–766). -/
def summarize_for_query (self : WikipediaClient) (w : LibWorld)
    (title query : String) (max_length : Int) : String :=
  match w title with
  | .exn m => "Error generating query-focused summary for '" ++ title ++ "': " ++ m
  | .missing => "No Wikipedia article found for '" ++ title ++ "'."
  | .page p =>
    let text_content := p.text
    let start_index := pyFind (pyLower text_content) (pyLower query)
    if start_index = -1 then
      let summary_part := pyStrSlice p.summary 0 max_length
      let summary_part :=
        if summary_part = "" then pyStrSlice text_content 0 max_length
        else summary_part
      if (summary_part.length : Int) ≥ max_length then summary_part ++ "..."
      else summary_part
    else
      let context_start : Int := max 0 (start_index - max_length.fdiv 2)
      let context_end : Int :=
        min (text_content.length : Int)
          (start_index + query.length + max_length.fdiv 2)
      let snippet := pyStrSlice text_content context_start context_end
      let snippet :=
        if (snippet.length : Int) > max_length then pyStrSlice snippet 0 max_length
        else snippet
      if (snippet.length : Int) ≥ max_length ∨ context_end < (text_content.length : Int)
      then snippet ++ "..."
      else snippet

/-- The inner `find_section_recursive` of `summarize_section` (788–796):
case-insensitive title match, depth-first, subsections before siblings. -/
def find_section_recursive : List Sec → String → Option Sec
  | [], _ => none
  | .mk t x subs :: rest, target =>
    if pyLower t = pyLower target then some (.mk t x subs)
    else
      match find_section_recursive subs target with
      | some s => some s
      | none => find_section_recursive rest target

/-- `WikipediaClient.summarize_section` (lines 768–808). -/
def summarize_section (self : WikipediaClient) (w : LibWorld)
    (title section_title : String) (max_length : Int) : String :=
  match w title with
  | .exn m => "Error summarizing section '" ++ section_title ++ "': " ++ m
  | .missing => "No Wikipedia article found for '" ++ title ++ "'."
  | .page p =>
    match find_section_recursive p.sections section_title with
    | none =>
      "Section '" ++ section_title ++ "' not found or is empty in article '" ++
        title ++ "'."
    | some target_section =>
      if target_section.text = "" then
        "Section '" ++ section_title ++ "' not found or is empty in article '" ++
          title ++ "'."
      else
        let summary := pyStrSlice target_section.text 0 max_length
        if (target_section.text.length : Int) > max_length then summary ++ "..."
        else summary

/-- The inner `find_section_text_recursive` of `extract_facts` (832–839).
A subsection hit whose text is empty is falsy in Python
(`if found_in_subsection:`), so the search continues past it. -/
def find_section_text_recursive : List Sec → String → Option String
  | [], _ => none
  | .mk t x subs :: rest, target =>
    if pyLower t = pyLower target then some x
    else
      match find_section_text_recursive subs target with
      | some found =>
        if found ≠ "" then some found
        else find_section_text_recursive rest target
      | none => find_section_text_recursive rest target

/-- The sentence-splitting pipeline of `extract_facts` (lines 853–859):
split on periods, trim, drop blanks, take the first `count`, re-append the
period. -/
def extract_facts_sentences (text_to_process : String) (count : Int) :
    List String :=
  let sentences := ((pySplitDot text_to_process).map pyStrip).filter (fun s => s != "")
  ((pySlice sentences 0 count).filter (fun s => s != "")).map (fun s => s ++ ".")

/-- `WikipediaClient.extract_facts` (lines 810–865).  An empty
`topic_within_article` string is falsy and takes the summary path. -/
def extract_facts (self : WikipediaClient) (w : LibWorld) (title : String)
    (topic_within_article : Option String) (count : Int) : List String :=
  match w title with
  | .exn m => ["Error extracting key facts for '" ++ title ++ "': " ++ m]
  | .missing => ["No Wikipedia article found for '" ++ title ++ "'."]
  | .page p =>
    let text_to_process :=
      match topic_within_article with
      | some topic =>
        if topic = "" then p.summary
        else
          match find_section_text_recursive p.sections topic with
          | some t => if t ≠ "" then t else p.summary
          | none => p.summary
      | none => p.summary
    if text_to_process = "" then ["No content found to extract facts from."]
    else
      let facts := extract_facts_sentences text_to_process count
      if facts = [] then ["Could not extract facts from the provided text."]
      else facts

/-! ### Per-operation LRU caching (source lines 308–318)

When `enable_cache` is set, `__init__` rebinds each of the ten content
operations to `functools.lru_cache(maxsize=128)` around itself: an
independent cache per operation, keyed by the operation's exact argument
tuple.  `lruFind`/`lru_cached` model one such cache: most-recently-used
entries at the front, a hit promotes its entry, a miss inserts at the
front and drops the least-recently-used entry past capacity 128.  The
third result component counts invocations of the underlying operation. -/

/-- The stored value for a key, if present. -/
def lruFind [DecidableEq κ] : List (κ × ν) → κ → Option ν
  | [], _ => none
  | (k', v) :: t, k => if k' = k then some v else lruFind t k

/-- One call through a `functools.lru_cache(maxsize=128)` wrapper. -/
def lru_cached [DecidableEq κ] (f : κ → ν) (cache : List (κ × ν)) (k : κ) :
    ν × List (κ × ν) × Nat :=
  match lruFind cache k with
  | some v => (v, (k, v) :: cache.filter (fun p => p.1 != k), 0)
  | none => (f k, ((k, f k) :: cache).take 128, 1)

/-- The ten per-operation caches a cache-enabled client holds, one
independent field per operation, each keyed by that operation's argument
tuple. -/
structure ClientCaches where
  search_cache : List ((String × Int) × List SearchResult)
  get_article_cache : List (String × ArticleResult)
  get_summary_cache : List (String × String)
  get_sections_cache : List (String × List SectionData)
  get_links_cache : List (String × List String)
  get_related_topics_cache : List ((String × Int) × List RelatedTopic)
  summarize_for_query_cache : List ((String × String × Int) × String)
  summarize_section_cache : List ((String × String × Int) × String)
  extract_facts_cache : List ((String × Option String × Int) × List String)
  get_coordinates_cache : List (String × CoordResult)

/-- The empty caches a cache-enabled client starts with. -/
def ClientCaches.empty : ClientCaches :=
  ⟨[], [], [], [], [], [], [], [], [], []⟩

/-- Cached `search`: result, updated caches, and the number of outbound
requests this call issued — the wrapper's underlying-invocation count
times the requests one underlying `search` call issues, so a cache hit
issues none. -/
def cached_search (self : WikipediaClient) (net : ApiRequest → SearchOutcome)
    (st : ClientCaches) (query : String) (limit : Int) :
    List SearchResult × ClientCaches × Nat :=
  let r := lru_cached (fun k => (search self net k.1 k.2).1)
    st.search_cache (query, limit)
  (r.1, { st with search_cache := r.2.1 },
    r.2.2 * (search self net query limit).2)

/-- Cached `get_article`. -/
def cached_get_article (self : WikipediaClient) (w : LibWorld)
    (st : ClientCaches) (title : String) : ArticleResult × ClientCaches × Nat :=
  let r := lru_cached (fun t => get_article self w t) st.get_article_cache title
  (r.1, { st with get_article_cache := r.2.1 }, r.2.2)

/-- Cached `get_summary`. -/
def cached_get_summary (self : WikipediaClient) (w : LibWorld)
    (st : ClientCaches) (title : String) : String × ClientCaches × Nat :=
  let r := lru_cached (fun t => get_summary self w t) st.get_summary_cache title
  (r.1, { st with get_summary_cache := r.2.1 }, r.2.2)

/-- Cached `get_sections`. -/
def cached_get_sections (self : WikipediaClient) (w : LibWorld)
    (st : ClientCaches) (title : String) : List SectionData × ClientCaches × Nat :=
  let r := lru_cached (fun t => get_sections self w t) st.get_sections_cache title
  (r.1, { st with get_sections_cache := r.2.1 }, r.2.2)

/-- Cached `get_links`. -/
def cached_get_links (self : WikipediaClient) (w : LibWorld)
    (st : ClientCaches) (title : String) : List String × ClientCaches × Nat :=
  let r := lru_cached (fun t => get_links self w t) st.get_links_cache title
  (r.1, { st with get_links_cache := r.2.1 }, r.2.2)

/-- Cached `get_related_topics`. -/
def cached_get_related_topics (self : WikipediaClient) (w : LibWorld)
    (st : ClientCaches) (title : String) (limit : Int) :
    List RelatedTopic × ClientCaches × Nat :=
  let r := lru_cached (fun k => get_related_topics self w k.1 k.2)
    st.get_related_topics_cache (title, limit)
  (r.1, { st with get_related_topics_cache := r.2.1 }, r.2.2)

/-- Cached `summarize_for_query`. -/
def cached_summarize_for_query (self : WikipediaClient) (w : LibWorld)
    (st : ClientCaches) (title query : String) (max_length : Int) :
    String × ClientCaches × Nat :=
  let r := lru_cached (fun k => summarize_for_query self w k.1 k.2.1 k.2.2)
    st.summarize_for_query_cache (title, query, max_length)
  (r.1, { st with summarize_for_query_cache := r.2.1 }, r.2.2)

/-- Cached `summarize_section`. -/
def cached_summarize_section (self : WikipediaClient) (w : LibWorld)
    (st : ClientCaches) (title section_title : String) (max_length : Int) :
    String × ClientCaches × Nat :=
  let r := lru_cached (fun k => summarize_section self w k.1 k.2.1 k.2.2)
    st.summarize_section_cache (title, section_title, max_length)
  (r.1, { st with summarize_section_cache := r.2.1 }, r.2.2)

/-- Cached `extract_facts`. -/
def cached_extract_facts (self : WikipediaClient) (w : LibWorld)
    (st : ClientCaches) (title : String) (topic : Option String) (count : Int) :
    List String × ClientCaches × Nat :=
  let r := lru_cached (fun k => extract_facts self w k.1 k.2.1 k.2.2)
    st.extract_facts_cache (title, topic, count)
  (r.1, { st with extract_facts_cache := r.2.1 }, r.2.2)

/-- Cached `get_coordinates`. -/
def cached_get_coordinates (self : WikipediaClient) (net : ApiRequest → CoordOutcome)
    (st : ClientCaches) (title : String) : CoordResult × ClientCaches × Nat :=
  let r := lru_cached (fun t => get_coordinates self net t) st.get_coordinates_cache title
  (r.1, { st with get_coordinates_cache := r.2.1 }, r.2.2)

/-! ### Concrete fixtures used by witnesses and counterexamples -/

/-- The client `WikipediaClient(language="zh-tw")` constructs. -/
def clientZhTw : WikipediaClient :=
  { original_input := "zh-tw", input_type := "language",
    resolved_language := "zh-tw", original_language := "zh-tw",
    enable_cache := false, access_token := none,
    user_agent := "WikipediaMCPServer/1.7.0 (https://github.com/rudra-ravi/wikipedia-mcp)",
    base_language := "zh", language_variant := some "zh-tw",
    api_url := "https://zh.wikipedia.org/w/api.php" }

/-- The client `WikipediaClient(language="en")` constructs. -/
def clientEn : WikipediaClient :=
  { original_input := "en", input_type := "language",
    resolved_language := "en", original_language := "en",
    enable_cache := false, access_token := none,
    user_agent := "WikipediaMCPServer/1.7.0 (https://github.com/rudra-ravi/wikipedia-mcp)",
    base_language := "en", language_variant := none,
    api_url := "https://en.wikipedia.org/w/api.php" }

/-- `clientZhTw` is what construction with `language="zh-tw"` yields. -/
theorem clientZhTw_init :
    WikipediaClient.init "zh-tw" none false none = .ok clientZhTw := rfl

/-- `clientEn` is what construction with `language="en"` yields. -/
theorem clientEn_init :
    WikipediaClient.init "en" none false none = .ok clientEn := rfl

/-! ### Dictionary lemmas -/

theorem dictGet_dictSet_self (d : Params) (k : String) (v : PyVal) :
    dictGet (dictSet d k v) k = some v := by
  induction d with
  | nil => simp [dictSet, dictGet]
  | cons p t ih =>
    obtain ⟨k', v'⟩ := p
    by_cases h : k' = k
    · simp [dictSet, dictGet, h]
    · simp [dictSet, dictGet, h, ih]

theorem dictGet_dictSet_ne (d : Params) (k k' : String) (v : PyVal)
    (h : k ≠ k') : dictGet (dictSet d k v) k' = dictGet d k' := by
  induction d with
  | nil => simp [dictSet, dictGet, h]
  | cons p t ih =>
    obtain ⟨k₀, v₀⟩ := p
    by_cases h₀ : k₀ = k
    · simp [dictSet, dictGet, h₀, h]
    · simp [dictSet, dictGet, h₀, ih]

theorem dictSet_dictSet_self (d : Params) (k : String) (v : PyVal) :
    dictSet (dictSet d k v) k v = dictSet d k v := by
  induction d with
  | nil => simp [dictSet]
  | cons p t ih =>
    obtain ⟨k', v'⟩ := p
    by_cases h : k' = k
    · simp [dictSet, h]
    · simp [dictSet, h, ih]

theorem dictSet_append_of_absent (d : Params) (k : String) (v : PyVal)
    (h : dictGet d k = none) : dictSet d k v = d ++ [(k, v)] := by
  induction d with
  | nil => simp [dictSet]
  | cons p t ih =>
    obtain ⟨k', v'⟩ := p
    by_cases hk : k' = k
    · simp [dictGet, hk] at h
    · simp [dictGet, hk] at h
      simp [dictSet, hk, ih h]

theorem tblGet_mem (tbl : List (String × String)) (k v : String)
    (h : tblGet tbl k = some v) : (k, v) ∈ tbl := by
  induction tbl with
  | nil => simp [tblGet] at h
  | cons p t ih =>
    obtain ⟨k', v'⟩ := p
    by_cases hk : k' = k
    · simp [tblGet, hk] at h
      simp [hk, h]
    · simp [tblGet, hk] at h
      exact List.mem_cons_of_mem _ (ih h)

/-! ### C3: the variant parser -/

/-- C3: `_parse_language_variant` is total (a Lean function by
construction) and, for every string tag: a tag that is a key of
`LANGUAGE_VARIANTS` yields the table's base language with the tag itself
echoed back unchanged as the variant, and any tag that is not a key
yields the tag as its own base language with no variant.  No input makes
it fail. -/
theorem parse_language_variant_spec (t : String) :
    (∀ b, tblGet LANGUAGE_VARIANTS t = some b →
      parse_language_variant t = (b, some t)) ∧
    (tblGet LANGUAGE_VARIANTS t = none →
      parse_language_variant t = (t, none)) := by
  refine ⟨fun b h => ?_, fun h => ?_⟩
  · simp [parse_language_variant, h]
  · simp [parse_language_variant, h]

/-- Witness for C3 at the variant key `"zh-tw"` and the plain tag `"fr"`. -/
theorem parse_language_variant_spec_witness :
    parse_language_variant "zh-tw" = ("zh", some "zh-tw") ∧
    parse_language_variant "fr" = ("fr", none) :=
  ⟨(parse_language_variant_spec "zh-tw").1 "zh" (by decide),
   (parse_language_variant_spec "fr").2 (by decide)⟩

/-! ### C5: the request parameter builder -/

/-- C5: with a null variant, `_add_variant_to_params` returns `params`
unchanged (no added key); with variant `v` and no pre-existing `variant`
key it returns `params` plus the single appended entry `("variant", v)` —
the original mapping is untouched, since the source assigns into a
`params.copy()` and the embedding is pure; and the operation is
idempotent: applying it twice equals applying it once, with no duplicated
or conflicting entries. -/
theorem add_variant_to_params_spec (self : WikipediaClient) (params : Params) :
    (self.language_variant = none →
      add_variant_to_params self params = params) ∧
    (∀ v, self.language_variant = some v → dictGet params "variant" = none →
      add_variant_to_params self params = params ++ [("variant", .str v)]) ∧
    (add_variant_to_params self (add_variant_to_params self params) =
      add_variant_to_params self params) := by
  refine ⟨fun h => ?_, fun v hv habs => ?_, ?_⟩
  · simp [add_variant_to_params, h]
  · simp [add_variant_to_params, hv, dictSet_append_of_absent _ _ _ habs]
  · cases h : self.language_variant with
    | none => simp [add_variant_to_params, h]
    | some v => simp [add_variant_to_params, h, dictSet_dictSet_self]

/-- Witness for C5 at the `zh-tw` and `en` clients on a concrete dict. -/
theorem add_variant_to_params_spec_witness :
    add_variant_to_params clientZhTw [("action", .str "query")] =
      [("action", .str "query"), ("variant", .str "zh-tw")] ∧
    add_variant_to_params clientEn [("action", .str "query")] =
      [("action", .str "query")] :=
  ⟨(add_variant_to_params_spec clientZhTw [("action", .str "query")]).2.1
      "zh-tw" rfl rfl,
   (add_variant_to_params_spec clientEn [("action", .str "query")]).1 rfl⟩

/-! ### C8: the base language is never a variant tag -/

/-- The base language computed by the variant parser is never itself a
key of `LANGUAGE_VARIANTS`. -/
theorem parse_base_not_variant_key (s : String) :
    tblGet LANGUAGE_VARIANTS (parse_language_variant s).1 = none := by
  cases h : tblGet LANGUAGE_VARIANTS s with
  | none => simpa [parse_language_variant, h] using h
  | some b =>
    have hmem : (s, b) ∈ LANGUAGE_VARIANTS := tblGet_mem _ _ _ h
    have hall : ∀ p ∈ LANGUAGE_VARIANTS,
        tblGet LANGUAGE_VARIANTS p.2 = none := by decide
    simpa [parse_language_variant, h] using hall _ hmem

/-- C8: for every construction of a Client Facade — from any language or
country input — the resulting `base_language` is never a key of
`LANGUAGE_VARIANTS`. -/
theorem base_language_never_variant (language : String) (country : Option String)
    (enable_cache : Bool) (access_token : Option String) (self : WikipediaClient)
    (h : WikipediaClient.init language country enable_cache access_token = .ok self) :
    tblGet LANGUAGE_VARIANTS self.base_language = none := by
  unfold WikipediaClient.init at h
  cases country with
  | none =>
    simp only [Except.ok.injEq] at h
    subst h
    exact parse_base_not_variant_key language
  | some c =>
    by_cases hc : c = ""
    · subst hc
      simp only [if_pos, Except.ok.injEq] at h
      subst h
      exact parse_base_not_variant_key language
    · simp only [if_neg hc] at h
      cases hr : resolve_country_to_language c with
      | error e => simp [hr] at h
      | ok r =>
        simp only [hr, Except.ok.injEq] at h
        subst h
        exact parse_base_not_variant_key r

/-- Witness for C8: the construction `WikipediaClient(language="zh-tw")`. -/
theorem base_language_never_variant_witness :
    tblGet LANGUAGE_VARIANTS clientZhTw.base_language = none :=
  base_language_never_variant "zh-tw" none false none clientZhTw rfl

/-! ### C2: case-insensitivity of country resolution -/

/-- `true` when a resolver Except is a success. -/
def exceptIsOk (e : Except UnsupportedLocale String) : Bool :=
  match e with
  | .ok _ => true
  | .error _ => false

/-- `true` when resolution of `c` succeeds with exactly `v`. -/
def resolveEq (c v : String) : Bool :=
  match resolve_country_to_language c with
  | .ok r => r == v
  | .error _ => false

/-- The per-key check of the (amended) C2 property: the key resolves to
its table value under all four input forms — unless it is the one
exceptional key. -/
def c2checkOne (p : String × String) : Bool :=
  (p.1 == "Bosnia and Herzegovina") ||
  (resolveEq p.1 p.2 && resolveEq (pyUpper p.1) p.2 &&
   resolveEq (pyTitle p.1) p.2 && resolveEq (" " ++ p.1 ++ " ") p.2)

/-- Each key of the CountryTable passes the per-key C2 check (one small
`rfl` evaluation per key keeps every kernel check cheap). -/
theorem c2key_0 : c2checkOne ("US", "en") = true := by rfl
theorem c2key_1 : c2checkOne ("USA", "en") = true := by rfl
theorem c2key_2 : c2checkOne ("United States", "en") = true := by rfl
theorem c2key_3 : c2checkOne ("UK", "en") = true := by rfl
theorem c2key_4 : c2checkOne ("GB", "en") = true := by rfl
theorem c2key_5 : c2checkOne ("United Kingdom", "en") = true := by rfl
theorem c2key_6 : c2checkOne ("CA", "en") = true := by rfl
theorem c2key_7 : c2checkOne ("Canada", "en") = true := by rfl
theorem c2key_8 : c2checkOne ("AU", "en") = true := by rfl
theorem c2key_9 : c2checkOne ("Australia", "en") = true := by rfl
theorem c2key_10 : c2checkOne ("NZ", "en") = true := by rfl
theorem c2key_11 : c2checkOne ("New Zealand", "en") = true := by rfl
theorem c2key_12 : c2checkOne ("IE", "en") = true := by rfl
theorem c2key_13 : c2checkOne ("Ireland", "en") = true := by rfl
theorem c2key_14 : c2checkOne ("ZA", "en") = true := by rfl
theorem c2key_15 : c2checkOne ("South Africa", "en") = true := by rfl
theorem c2key_16 : c2checkOne ("CN", "zh-hans") = true := by rfl
theorem c2key_17 : c2checkOne ("China", "zh-hans") = true := by rfl
theorem c2key_18 : c2checkOne ("TW", "zh-tw") = true := by rfl
theorem c2key_19 : c2checkOne ("Taiwan", "zh-tw") = true := by rfl
theorem c2key_20 : c2checkOne ("HK", "zh-hk") = true := by rfl
theorem c2key_21 : c2checkOne ("Hong Kong", "zh-hk") = true := by rfl
theorem c2key_22 : c2checkOne ("MO", "zh-mo") = true := by rfl
theorem c2key_23 : c2checkOne ("Macau", "zh-mo") = true := by rfl
theorem c2key_24 : c2checkOne ("SG", "zh-sg") = true := by rfl
theorem c2key_25 : c2checkOne ("Singapore", "zh-sg") = true := by rfl
theorem c2key_26 : c2checkOne ("MY", "zh-my") = true := by rfl
theorem c2key_27 : c2checkOne ("Malaysia", "zh-my") = true := by rfl
theorem c2key_28 : c2checkOne ("DE", "de") = true := by rfl
theorem c2key_29 : c2checkOne ("Germany", "de") = true := by rfl
theorem c2key_30 : c2checkOne ("FR", "fr") = true := by rfl
theorem c2key_31 : c2checkOne ("France", "fr") = true := by rfl
theorem c2key_32 : c2checkOne ("ES", "es") = true := by rfl
theorem c2key_33 : c2checkOne ("Spain", "es") = true := by rfl
theorem c2key_34 : c2checkOne ("IT", "it") = true := by rfl
theorem c2key_35 : c2checkOne ("Italy", "it") = true := by rfl
theorem c2key_36 : c2checkOne ("PT", "pt") = true := by rfl
theorem c2key_37 : c2checkOne ("Portugal", "pt") = true := by rfl
theorem c2key_38 : c2checkOne ("NL", "nl") = true := by rfl
theorem c2key_39 : c2checkOne ("Netherlands", "nl") = true := by rfl
theorem c2key_40 : c2checkOne ("PL", "pl") = true := by rfl
theorem c2key_41 : c2checkOne ("Poland", "pl") = true := by rfl
theorem c2key_42 : c2checkOne ("RU", "ru") = true := by rfl
theorem c2key_43 : c2checkOne ("Russia", "ru") = true := by rfl
theorem c2key_44 : c2checkOne ("UA", "uk") = true := by rfl
theorem c2key_45 : c2checkOne ("Ukraine", "uk") = true := by rfl
theorem c2key_46 : c2checkOne ("TR", "tr") = true := by rfl
theorem c2key_47 : c2checkOne ("Turkey", "tr") = true := by rfl
theorem c2key_48 : c2checkOne ("GR", "el") = true := by rfl
theorem c2key_49 : c2checkOne ("Greece", "el") = true := by rfl
theorem c2key_50 : c2checkOne ("SE", "sv") = true := by rfl
theorem c2key_51 : c2checkOne ("Sweden", "sv") = true := by rfl
theorem c2key_52 : c2checkOne ("NO", "no") = true := by rfl
theorem c2key_53 : c2checkOne ("Norway", "no") = true := by rfl
theorem c2key_54 : c2checkOne ("DK", "da") = true := by rfl
theorem c2key_55 : c2checkOne ("Denmark", "da") = true := by rfl
theorem c2key_56 : c2checkOne ("FI", "fi") = true := by rfl
theorem c2key_57 : c2checkOne ("Finland", "fi") = true := by rfl
theorem c2key_58 : c2checkOne ("IS", "is") = true := by rfl
theorem c2key_59 : c2checkOne ("Iceland", "is") = true := by rfl
theorem c2key_60 : c2checkOne ("CZ", "cs") = true := by rfl
theorem c2key_61 : c2checkOne ("Czech Republic", "cs") = true := by rfl
theorem c2key_62 : c2checkOne ("SK", "sk") = true := by rfl
theorem c2key_63 : c2checkOne ("Slovakia", "sk") = true := by rfl
theorem c2key_64 : c2checkOne ("HU", "hu") = true := by rfl
theorem c2key_65 : c2checkOne ("Hungary", "hu") = true := by rfl
theorem c2key_66 : c2checkOne ("RO", "ro") = true := by rfl
theorem c2key_67 : c2checkOne ("Romania", "ro") = true := by rfl
theorem c2key_68 : c2checkOne ("BG", "bg") = true := by rfl
theorem c2key_69 : c2checkOne ("Bulgaria", "bg") = true := by rfl
theorem c2key_70 : c2checkOne ("HR", "hr") = true := by rfl
theorem c2key_71 : c2checkOne ("Croatia", "hr") = true := by rfl
theorem c2key_72 : c2checkOne ("SI", "sl") = true := by rfl
theorem c2key_73 : c2checkOne ("Slovenia", "sl") = true := by rfl
theorem c2key_74 : c2checkOne ("RS", "sr") = true := by rfl
theorem c2key_75 : c2checkOne ("Serbia", "sr") = true := by rfl
theorem c2key_76 : c2checkOne ("BA", "bs") = true := by rfl
theorem c2key_77 : c2checkOne ("Bosnia and Herzegovina", "bs") = true := by rfl
theorem c2key_78 : c2checkOne ("MK", "mk") = true := by rfl
theorem c2key_79 : c2checkOne ("Macedonia", "mk") = true := by rfl
theorem c2key_80 : c2checkOne ("AL", "sq") = true := by rfl
theorem c2key_81 : c2checkOne ("Albania", "sq") = true := by rfl
theorem c2key_82 : c2checkOne ("MT", "mt") = true := by rfl
theorem c2key_83 : c2checkOne ("Malta", "mt") = true := by rfl
theorem c2key_84 : c2checkOne ("JP", "ja") = true := by rfl
theorem c2key_85 : c2checkOne ("Japan", "ja") = true := by rfl
theorem c2key_86 : c2checkOne ("KR", "ko") = true := by rfl
theorem c2key_87 : c2checkOne ("South Korea", "ko") = true := by rfl
theorem c2key_88 : c2checkOne ("IN", "hi") = true := by rfl
theorem c2key_89 : c2checkOne ("India", "hi") = true := by rfl
theorem c2key_90 : c2checkOne ("TH", "th") = true := by rfl
theorem c2key_91 : c2checkOne ("Thailand", "th") = true := by rfl
theorem c2key_92 : c2checkOne ("VN", "vi") = true := by rfl
theorem c2key_93 : c2checkOne ("Vietnam", "vi") = true := by rfl
theorem c2key_94 : c2checkOne ("ID", "id") = true := by rfl
theorem c2key_95 : c2checkOne ("Indonesia", "id") = true := by rfl
theorem c2key_96 : c2checkOne ("PH", "tl") = true := by rfl
theorem c2key_97 : c2checkOne ("Philippines", "tl") = true := by rfl
theorem c2key_98 : c2checkOne ("BD", "bn") = true := by rfl
theorem c2key_99 : c2checkOne ("Bangladesh", "bn") = true := by rfl
theorem c2key_100 : c2checkOne ("PK", "ur") = true := by rfl
theorem c2key_101 : c2checkOne ("Pakistan", "ur") = true := by rfl
theorem c2key_102 : c2checkOne ("LK", "si") = true := by rfl
theorem c2key_103 : c2checkOne ("Sri Lanka", "si") = true := by rfl
theorem c2key_104 : c2checkOne ("MM", "my") = true := by rfl
theorem c2key_105 : c2checkOne ("Myanmar", "my") = true := by rfl
theorem c2key_106 : c2checkOne ("KH", "km") = true := by rfl
theorem c2key_107 : c2checkOne ("Cambodia", "km") = true := by rfl
theorem c2key_108 : c2checkOne ("LA", "lo") = true := by rfl
theorem c2key_109 : c2checkOne ("Laos", "lo") = true := by rfl
theorem c2key_110 : c2checkOne ("MN", "mn") = true := by rfl
theorem c2key_111 : c2checkOne ("Mongolia", "mn") = true := by rfl
theorem c2key_112 : c2checkOne ("KZ", "kk") = true := by rfl
theorem c2key_113 : c2checkOne ("Kazakhstan", "kk") = true := by rfl
theorem c2key_114 : c2checkOne ("UZ", "uz") = true := by rfl
theorem c2key_115 : c2checkOne ("Uzbekistan", "uz") = true := by rfl
theorem c2key_116 : c2checkOne ("AF", "fa") = true := by rfl
theorem c2key_117 : c2checkOne ("Afghanistan", "fa") = true := by rfl
theorem c2key_118 : c2checkOne ("IR", "fa") = true := by rfl
theorem c2key_119 : c2checkOne ("Iran", "fa") = true := by rfl
theorem c2key_120 : c2checkOne ("SA", "ar") = true := by rfl
theorem c2key_121 : c2checkOne ("Saudi Arabia", "ar") = true := by rfl
theorem c2key_122 : c2checkOne ("AE", "ar") = true := by rfl
theorem c2key_123 : c2checkOne ("UAE", "ar") = true := by rfl
theorem c2key_124 : c2checkOne ("EG", "ar") = true := by rfl
theorem c2key_125 : c2checkOne ("Egypt", "ar") = true := by rfl
theorem c2key_126 : c2checkOne ("IQ", "ar") = true := by rfl
theorem c2key_127 : c2checkOne ("Iraq", "ar") = true := by rfl
theorem c2key_128 : c2checkOne ("SY", "ar") = true := by rfl
theorem c2key_129 : c2checkOne ("Syria", "ar") = true := by rfl
theorem c2key_130 : c2checkOne ("JO", "ar") = true := by rfl
theorem c2key_131 : c2checkOne ("Jordan", "ar") = true := by rfl
theorem c2key_132 : c2checkOne ("LB", "ar") = true := by rfl
theorem c2key_133 : c2checkOne ("Lebanon", "ar") = true := by rfl
theorem c2key_134 : c2checkOne ("IL", "he") = true := by rfl
theorem c2key_135 : c2checkOne ("Israel", "he") = true := by rfl
theorem c2key_136 : c2checkOne ("MA", "ar") = true := by rfl
theorem c2key_137 : c2checkOne ("Morocco", "ar") = true := by rfl
theorem c2key_138 : c2checkOne ("DZ", "ar") = true := by rfl
theorem c2key_139 : c2checkOne ("Algeria", "ar") = true := by rfl
theorem c2key_140 : c2checkOne ("TN", "ar") = true := by rfl
theorem c2key_141 : c2checkOne ("Tunisia", "ar") = true := by rfl
theorem c2key_142 : c2checkOne ("LY", "ar") = true := by rfl
theorem c2key_143 : c2checkOne ("Libya", "ar") = true := by rfl
theorem c2key_144 : c2checkOne ("SD", "ar") = true := by rfl
theorem c2key_145 : c2checkOne ("Sudan", "ar") = true := by rfl
theorem c2key_146 : c2checkOne ("ET", "am") = true := by rfl
theorem c2key_147 : c2checkOne ("Ethiopia", "am") = true := by rfl
theorem c2key_148 : c2checkOne ("KE", "sw") = true := by rfl
theorem c2key_149 : c2checkOne ("Kenya", "sw") = true := by rfl
theorem c2key_150 : c2checkOne ("TZ", "sw") = true := by rfl
theorem c2key_151 : c2checkOne ("Tanzania", "sw") = true := by rfl
theorem c2key_152 : c2checkOne ("NG", "ha") = true := by rfl
theorem c2key_153 : c2checkOne ("Nigeria", "ha") = true := by rfl
theorem c2key_154 : c2checkOne ("GH", "en") = true := by rfl
theorem c2key_155 : c2checkOne ("Ghana", "en") = true := by rfl
theorem c2key_156 : c2checkOne ("MX", "es") = true := by rfl
theorem c2key_157 : c2checkOne ("Mexico", "es") = true := by rfl
theorem c2key_158 : c2checkOne ("AR", "es") = true := by rfl
theorem c2key_159 : c2checkOne ("Argentina", "es") = true := by rfl
theorem c2key_160 : c2checkOne ("CO", "es") = true := by rfl
theorem c2key_161 : c2checkOne ("Colombia", "es") = true := by rfl
theorem c2key_162 : c2checkOne ("VE", "es") = true := by rfl
theorem c2key_163 : c2checkOne ("Venezuela", "es") = true := by rfl
theorem c2key_164 : c2checkOne ("PE", "es") = true := by rfl
theorem c2key_165 : c2checkOne ("Peru", "es") = true := by rfl
theorem c2key_166 : c2checkOne ("CL", "es") = true := by rfl
theorem c2key_167 : c2checkOne ("Chile", "es") = true := by rfl
theorem c2key_168 : c2checkOne ("EC", "es") = true := by rfl
theorem c2key_169 : c2checkOne ("Ecuador", "es") = true := by rfl
theorem c2key_170 : c2checkOne ("BO", "es") = true := by rfl
theorem c2key_171 : c2checkOne ("Bolivia", "es") = true := by rfl
theorem c2key_172 : c2checkOne ("PY", "es") = true := by rfl
theorem c2key_173 : c2checkOne ("Paraguay", "es") = true := by rfl
theorem c2key_174 : c2checkOne ("UY", "es") = true := by rfl
theorem c2key_175 : c2checkOne ("Uruguay", "es") = true := by rfl
theorem c2key_176 : c2checkOne ("CR", "es") = true := by rfl
theorem c2key_177 : c2checkOne ("Costa Rica", "es") = true := by rfl
theorem c2key_178 : c2checkOne ("PA", "es") = true := by rfl
theorem c2key_179 : c2checkOne ("Panama", "es") = true := by rfl
theorem c2key_180 : c2checkOne ("GT", "es") = true := by rfl
theorem c2key_181 : c2checkOne ("Guatemala", "es") = true := by rfl
theorem c2key_182 : c2checkOne ("HN", "es") = true := by rfl
theorem c2key_183 : c2checkOne ("Honduras", "es") = true := by rfl
theorem c2key_184 : c2checkOne ("SV", "es") = true := by rfl
theorem c2key_185 : c2checkOne ("El Salvador", "es") = true := by rfl
theorem c2key_186 : c2checkOne ("NI", "es") = true := by rfl
theorem c2key_187 : c2checkOne ("Nicaragua", "es") = true := by rfl
theorem c2key_188 : c2checkOne ("CU", "es") = true := by rfl
theorem c2key_189 : c2checkOne ("Cuba", "es") = true := by rfl
theorem c2key_190 : c2checkOne ("DO", "es") = true := by rfl
theorem c2key_191 : c2checkOne ("Dominican Republic", "es") = true := by rfl
theorem c2key_192 : c2checkOne ("BR", "pt") = true := by rfl
theorem c2key_193 : c2checkOne ("Brazil", "pt") = true := by rfl
theorem c2key_194 : c2checkOne ("BY", "be") = true := by rfl
theorem c2key_195 : c2checkOne ("Belarus", "be") = true := by rfl
theorem c2key_196 : c2checkOne ("EE", "et") = true := by rfl
theorem c2key_197 : c2checkOne ("Estonia", "et") = true := by rfl
theorem c2key_198 : c2checkOne ("LV", "lv") = true := by rfl
theorem c2key_199 : c2checkOne ("Latvia", "lv") = true := by rfl
theorem c2key_200 : c2checkOne ("LT", "lt") = true := by rfl
theorem c2key_201 : c2checkOne ("Lithuania", "lt") = true := by rfl
theorem c2key_202 : c2checkOne ("GE", "ka") = true := by rfl
theorem c2key_203 : c2checkOne ("Georgia", "ka") = true := by rfl
theorem c2key_204 : c2checkOne ("AM", "hy") = true := by rfl
theorem c2key_205 : c2checkOne ("Armenia", "hy") = true := by rfl
theorem c2key_206 : c2checkOne ("AZ", "az") = true := by rfl
theorem c2key_207 : c2checkOne ("Azerbaijan", "az") = true := by rfl

set_option maxRecDepth 20000 in
/-- Every CountryTable entry passes the per-key C2 check. -/
theorem c2check_all : ∀ p ∈ COUNTRY_TO_LANGUAGE, c2checkOne p = true := by
  simp only [COUNTRY_TO_LANGUAGE, List.forall_mem_cons]
  exact ⟨c2key_0, c2key_1, c2key_2, c2key_3, c2key_4, c2key_5, c2key_6, c2key_7, c2key_8, c2key_9, c2key_10, c2key_11, c2key_12, c2key_13, c2key_14, c2key_15, c2key_16, c2key_17, c2key_18, c2key_19, c2key_20, c2key_21, c2key_22, c2key_23, c2key_24, c2key_25, c2key_26, c2key_27, c2key_28, c2key_29, c2key_30, c2key_31, c2key_32, c2key_33, c2key_34, c2key_35, c2key_36, c2key_37, c2key_38, c2key_39, c2key_40, c2key_41, c2key_42, c2key_43, c2key_44, c2key_45, c2key_46, c2key_47, c2key_48, c2key_49, c2key_50, c2key_51, c2key_52, c2key_53, c2key_54, c2key_55, c2key_56, c2key_57, c2key_58, c2key_59, c2key_60, c2key_61, c2key_62, c2key_63, c2key_64, c2key_65, c2key_66, c2key_67, c2key_68, c2key_69, c2key_70, c2key_71, c2key_72, c2key_73, c2key_74, c2key_75, c2key_76, c2key_77, c2key_78, c2key_79, c2key_80, c2key_81, c2key_82, c2key_83, c2key_84, c2key_85, c2key_86, c2key_87, c2key_88, c2key_89, c2key_90, c2key_91, c2key_92, c2key_93, c2key_94, c2key_95, c2key_96, c2key_97, c2key_98, c2key_99, c2key_100, c2key_101, c2key_102, c2key_103, c2key_104, c2key_105, c2key_106, c2key_107, c2key_108, c2key_109, c2key_110, c2key_111, c2key_112, c2key_113, c2key_114, c2key_115, c2key_116, c2key_117, c2key_118, c2key_119, c2key_120, c2key_121, c2key_122, c2key_123, c2key_124, c2key_125, c2key_126, c2key_127, c2key_128, c2key_129, c2key_130, c2key_131, c2key_132, c2key_133, c2key_134, c2key_135, c2key_136, c2key_137, c2key_138, c2key_139, c2key_140, c2key_141, c2key_142, c2key_143, c2key_144, c2key_145, c2key_146, c2key_147, c2key_148, c2key_149, c2key_150, c2key_151, c2key_152, c2key_153, c2key_154, c2key_155, c2key_156, c2key_157, c2key_158, c2key_159, c2key_160, c2key_161, c2key_162, c2key_163, c2key_164, c2key_165, c2key_166, c2key_167, c2key_168, c2key_169, c2key_170, c2key_171, c2key_172, c2key_173, c2key_174, c2key_175, c2key_176, c2key_177, c2key_178, c2key_179, c2key_180, c2key_181, c2key_182, c2key_183, c2key_184, c2key_185, c2key_186, c2key_187, c2key_188, c2key_189, c2key_190, c2key_191, c2key_192, c2key_193, c2key_194, c2key_195, c2key_196, c2key_197, c2key_198, c2key_199, c2key_200, c2key_201, c2key_202, c2key_203, c2key_204, c2key_205, c2key_206, c2key_207, fun x h => absurd h (List.not_mem_nil x)⟩


theorem resolveEq_ok (c v : String) (h : resolveEq c v = true) :
    resolve_country_to_language c = .ok v := by
  unfold resolveEq at h
  cases hr : resolve_country_to_language c with
  | ok r =>
    rw [hr] at h
    simp only [beq_iff_eq] at h
    rw [h]
  | error e => rw [hr] at h; simp at h

/-- C2 counterexample: for the CountryTable key
`"Bosnia and Herzegovina"`, resolving the key as stored succeeds, but its
upper-cased form, its title-cased form and its whitespace-padded form all
fail: Python `str.title()` renders the stored lowercase `"and"` as
`"And"`, so neither the upper/title normalizations nor the untrimmed
original-case lookup can hit the stored key. -/
theorem country_resolution_bosnia_counterexample :
    resolve_country_to_language "Bosnia and Herzegovina" = .ok "bs" ∧
    exceptIsOk (resolve_country_to_language
      (pyUpper "Bosnia and Herzegovina")) = false ∧
    exceptIsOk (resolve_country_to_language
      (pyTitle "Bosnia and Herzegovina")) = false ∧
    exceptIsOk (resolve_country_to_language
      (" " ++ "Bosnia and Herzegovina" ++ " ")) = false := by
  refine ⟨by rfl, by rfl, by rfl, by rfl⟩

/-- C2 (amended): for every key `c` of the CountryTable other than
`"Bosnia and Herzegovina"`, resolution is case-insensitive and
whitespace-tolerant — `resolve(c)`, `resolve(c.upper())`,
`resolve(c.title())` and `resolve(" " + c + " ")` all succeed and return
the key's table value. -/
theorem country_resolution_case_insensitive (p : String × String)
    (hp : p ∈ COUNTRY_TO_LANGUAGE) (hne : p.1 ≠ "Bosnia and Herzegovina") :
    resolve_country_to_language p.1 = .ok p.2 ∧
    resolve_country_to_language (pyUpper p.1) = .ok p.2 ∧
    resolve_country_to_language (pyTitle p.1) = .ok p.2 ∧
    resolve_country_to_language (" " ++ p.1 ++ " ") = .ok p.2 := by
  have hall : c2checkOne p = true := c2check_all p hp
  unfold c2checkOne at hall
  rw [Bool.or_eq_true] at hall
  rcases hall with hb | hgood
  · exact absurd (by simpa using hb) hne
  · simp only [Bool.and_eq_true] at hgood
    exact ⟨resolveEq_ok _ _ hgood.1.1.1, resolveEq_ok _ _ hgood.1.1.2,
           resolveEq_ok _ _ hgood.1.2, resolveEq_ok _ _ hgood.2⟩

/-- Witness for the amended C2 at the key `("JP", "ja")`. -/
theorem country_resolution_case_insensitive_witness :
    resolve_country_to_language "JP" = .ok "ja" ∧
    resolve_country_to_language (pyUpper "JP") = .ok "ja" ∧
    resolve_country_to_language (pyTitle "JP") = .ok "ja" ∧
    resolve_country_to_language (" " ++ "JP" ++ " ") = .ok "ja" :=
  country_resolution_case_insensitive ("JP", "ja") (by decide) (by decide)

/-! ### C6: search input validation -/

/-- Looking up any key other than `"variant"` is unaffected by the
parameter builder. -/
theorem dictGet_addVariant_ne (self : WikipediaClient) (params : Params)
    (k : String) (hk : k ≠ "variant") :
    dictGet (add_variant_to_params self params) k = dictGet params k := by
  cases hv : self.language_variant with
  | none => simp [add_variant_to_params, hv]
  | some v =>
    simp only [add_variant_to_params, hv]
    exact dictGet_dictSet_ne _ _ _ _ (Ne.symm hk)

/-- C6: `search` validates its inputs before any request.  An empty or
all-whitespace query yields the empty list with no outbound request
issued; for a nonempty trimmed query the issued request's transmitted
`srlimit` is 10 when `limit ≤ 0` and 500 when `limit > 500`, and its
transmitted `srsearch` is the trimmed query truncated to its first 300
characters when the trimmed query exceeds 300 characters. -/
theorem search_validation (self : WikipediaClient)
    (net : ApiRequest → SearchOutcome) (query : String) (limit : Int) :
    (pyStrip query = "" →
      search_request self query limit = none ∧
      search self net query limit = ([], 0)) ∧
    (∀ req, search_request self query limit = some req →
      (limit ≤ 0 → dictGet req.params "srlimit" = some (.int 10)) ∧
      (limit > 500 → dictGet req.params "srlimit" = some (.int 500)) ∧
      ((pyStrip query).length > 300 →
        dictGet req.params "srsearch" =
          some (.str (pyStrSlice (pyStrip query) 0 300)))) := by
  refine ⟨fun h => ⟨by simp [search_request, h], by simp [search, search_request, h]⟩,
    fun req h => ?_⟩
  have h0 : ¬ pyStrip query = "" := by
    intro h0
    simp [search_request, h0] at h
  simp only [search_request, if_neg h0, Option.some.injEq] at h
  subst h
  refine ⟨fun hl => ?_, fun hl => ?_, fun hq => ?_⟩
  · rw [dictGet_addVariant_ne self _ "srlimit" (by decide)]
    simp [dictGet, hl]
  · have hl0 : ¬ limit ≤ 0 := by omega
    rw [dictGet_addVariant_ne self _ "srlimit" (by decide)]
    simp [dictGet, hl, hl0]
  · rw [dictGet_addVariant_ne self _ "srsearch" (by decide)]
    simp [dictGet, hq]

/-- Witness for C6: the blank query `"   "` issues nothing and returns
the empty list; for query `"hi"` with `limit = 0` the transmitted
`srlimit` is 10. -/
theorem search_validation_witness :
    (search_request clientEn "   " 0 = none ∧
      search clientEn (fun _ => .ok []) "   " 0 = ([], 0)) ∧
    dictGet
      [("action", PyVal.str "query"), ("format", PyVal.str "json"),
       ("list", PyVal.str "search"), ("utf8", PyVal.int 1),
       ("srsearch", PyVal.str "hi"), ("srlimit", PyVal.int 10)] "srlimit" =
      some (.int 10) :=
  ⟨(search_validation clientEn (fun _ => .ok []) "   " 0).1 rfl,
   ((search_validation clientEn (fun _ => .ok []) "hi" 0).2
      ⟨"https://en.wikipedia.org/w/api.php",
       [("action", PyVal.str "query"), ("format", PyVal.str "json"),
        ("list", PyVal.str "search"), ("utf8", PyVal.int 1),
        ("srsearch", PyVal.str "hi"), ("srlimit", PyVal.int 10)]⟩ rfl).1
      (by decide)⟩

/-! ### C9: fact extraction -/

/-- C9: on an existing page `extract_facts` draws its sentences from the
matched section's text when `topic_within_article` resolves to one, and
from the article summary otherwise; the sentences are the period-split,
trimmed, non-blank pieces of that text in order, each with a period
re-appended, and (for `count ≥ 0`) at most `count` of them are
returned. -/
theorem extract_facts_spec (self : WikipediaClient) (w : LibWorld)
    (title : String) (count : Int) (p : Page) (hw : w title = .page p) :
    (p.summary ≠ "" → extract_facts_sentences p.summary count ≠ [] →
      extract_facts self w title none count =
        extract_facts_sentences p.summary count) ∧
    (∀ tp stext, tp ≠ "" →
      find_section_text_recursive p.sections tp = some stext → stext ≠ "" →
      extract_facts_sentences stext count ≠ [] →
      extract_facts self w title (some tp) count =
        extract_facts_sentences stext count) ∧
    (∀ text, 0 ≤ count →
      (extract_facts_sentences text count).length ≤ count.toNat) ∧
    (∀ text fact, fact ∈ extract_facts_sentences text count →
      ∃ s ∈ (pySplitDot text).map pyStrip, s ≠ "" ∧ fact = s ++ ".") := by
  refine ⟨fun hs hf => ?_, fun tp stext htp hfind hst hf => ?_,
    fun text hc => ?_, fun text fact hf => ?_⟩
  · simp [extract_facts, hw, hs, hf]
  · simp [extract_facts, hw, htp, hfind, hst, hf]
  · have h1 : ∀ l : List String, (pySlice l 0 count).length ≤ count.toNat := by
      intro l
      simp only [pySlice, List.length_drop, List.length_take]
      have hC : (if count < 0 then
            (if 0 ≤ (l.length : Int) + count then (l.length : Int) + count else 0)
          else if count ≤ (l.length : Int) then count
          else (l.length : Int)).toNat ≤ count.toNat := by
        split_ifs <;> omega
      omega
    calc (extract_facts_sentences text count).length
        ≤ (pySlice (((pySplitDot text).map pyStrip).filter
            (fun s => s != "")) 0 count).length := by
          simp only [extract_facts_sentences, List.length_map]
          exact List.length_filter_le _ _
      _ ≤ count.toNat := h1 _
  · unfold extract_facts_sentences at hf
    obtain ⟨s, hs, rfl⟩ := List.mem_map.mp hf
    have hs' := List.mem_of_mem_filter hs
    have hsne : s ≠ "" := by simpa using List.of_mem_filter hs
    have : s ∈ ((pySplitDot text).map pyStrip).filter (fun x => x != "") := by
      unfold pySlice at hs'
      exact List.mem_of_mem_take (List.mem_of_mem_drop hs')
    exact ⟨s, List.mem_of_mem_filter this, hsne, rfl⟩

/-- The fixture page whose summary is the claim's example text. -/
def factsPage : Page :=
  { title := "Test", pageid := 1,
    summary := "Fact one. Fact two. Fact three. Fact four.",
    text := "", fullurl := "", sections := [], categories := [], links := [] }

/-- A world holding only `factsPage`. -/
def factsWorld : LibWorld := fun t =>
  if t = "Test" then .page factsPage else .missing

/-- Witness for C9: the claim's concrete example — `count = 3` on
"Fact one. Fact two. Fact three. Fact four." returns exactly the first
three sentences. -/
theorem extract_facts_spec_witness :
    extract_facts clientEn factsWorld "Test" none 3 =
      ["Fact one.", "Fact two.", "Fact three."] :=
  ((extract_facts_spec clientEn factsWorld "Test" 3 factsPage rfl).1
    (by decide) (by decide)).trans (by decide)

/-! ### C10: related-topics slot consumption -/

/-- Fixture: a resolvable linked page. -/
def relPageA : Page :=
  { title := "A", pageid := 2, summary := "sumA", text := "",
    fullurl := "urlA", sections := [], categories := [], links := [] }

/-- Fixture: a later resolvable linked page beyond the examined window. -/
def relPageC : Page :=
  { title := "C", pageid := 3, summary := "sumC", text := "",
    fullurl := "urlC", sections := [], categories := [], links := [] }

/-- Fixture: the base page with three links (the middle one dead) and one
category. -/
def relPageBase : Page :=
  { title := "Base", pageid := 1, summary := "", text := "", fullurl := "",
    sections := [], categories := ["Category:X"], links := ["A", "B", "C"] }

/-- Fixture world: `"B"` does not exist, `"A"` and `"C"` do. -/
def relWorld : LibWorld := fun t =>
  if t = "Base" then .page relPageBase
  else if t = "A" then .page relPageA
  else if t = "C" then .page relPageC
  else .missing

/-- C10: `get_related_topics` examines only the first `limit` links — the
result on a page is unchanged whenever the slice `links[:limit]` is
unchanged, whatever links follow — and a nonexistent page among those
first `limit` links consumes its slot without being replaced by a later
link: with `limit = 2` on links `["A", "B", "C"]` where `"B"` is dead and
`"C"` resolvable, the result holds a single link entry (fewer than
`limit`) and a category entry filling the remaining slot. -/
theorem related_topics_slot_consumption (self : WikipediaClient)
    (w : LibWorld) (p : Page) (limit : Int) :
    (∀ links', pySlice links' 0 limit = pySlice p.links 0 limit →
      get_related_topics_page self w { p with links := links' } limit =
        get_related_topics_page self w p limit) ∧
    (get_related_topics clientEn relWorld "Base" 2 =
      [.link "A" "sumA" "urlA", .category "X"] ∧
     relWorld "C" = .page relPageC ∧
     ((get_related_topics clientEn relWorld "Base" 2).filter
        (fun t => t.isLink)).length = 1) := by
  refine ⟨fun links' h => ?_, by decide, by rfl, by decide⟩
  simp [get_related_topics_page, h]

/-- Witness for C10: the base page's result with `limit = 2` is already
fixed by its first two links — replacing the examined window's tail
`["C"]` leaves the result unchanged. -/
theorem related_topics_slot_consumption_witness :
    get_related_topics_page clientEn relWorld
      { relPageBase with links := ["A", "B", "Other"] } 2 =
      get_related_topics_page clientEn relWorld relPageBase 2 :=
  (related_topics_slot_consumption clientEn relWorld relPageBase 2).1
    ["A", "B", "Other"] (by decide)

/-! ### C1: variant propagation -/

/-- C1 (amended): when the resolved variant is non-null, the two
operations that issue direct REST requests through the parameter builder
— `search` and `get_coordinates` — include the variant marker in the
parameters of every outbound request they issue; the library-routed
operations' requests (modelled from the spec's collaborator boundary,
which hands the library only the user agent and base language) carry no
variant marker. -/
theorem variant_propagation (self : WikipediaClient) (v : String)
    (hv : self.language_variant = some v) :
    (∀ query limit req, search_request self query limit = some req →
      dictGet req.params "variant" = some (.str v)) ∧
    (∀ title, dictGet (get_coordinates_request self title).params "variant" =
      some (.str v)) ∧
    (∀ title req, req ∈ get_summary_requests self title →
      dictGet req.params "variant" = none) := by
  refine ⟨fun query limit req h => ?_, fun title => ?_, fun title req h => ?_⟩
  · have h0 : ¬ pyStrip query = "" := by
      intro h0
      simp [search_request, h0] at h
    simp only [search_request, if_neg h0, Option.some.injEq] at h
    subst h
    simp [add_variant_to_params, hv, dictGet_dictSet_self]
  · simp [get_coordinates_request, add_variant_to_params, hv, dictGet_dictSet_self]
  · simp only [get_summary_requests, List.mem_singleton] at h
    subst h
    rfl

/-- C1 counterexample: the `zh-tw` client's resolved variant is non-null,
yet the one outbound request its `get_summary` issues (the library page
fetch) carries no `variant` parameter — so not every content operation
includes the variant marker in every outbound request. -/
theorem variant_propagation_counterexample :
    clientZhTw.language_variant = some "zh-tw" ∧
    (get_summary_requests clientZhTw "Test").map
      (fun r => dictGet r.params "variant") = [none] :=
  ⟨rfl, rfl⟩

/-- Witness for the amended C1 at the `zh-tw` client. -/
theorem variant_propagation_witness :
    dictGet (get_coordinates_request clientZhTw "Test").params "variant" =
      some (.str "zh-tw") :=
  (variant_propagation clientZhTw "zh-tw" rfl).2.1 "Test"

/-! ### C4: the error boundary -/

/-- C4: the only error that crosses the Client Facade boundary is the
resolver's `UnsupportedLocale`, surfaced synchronously by construction
(the constructor's `Except` result); its message is the original
untrimmed input wrapped in the fixed text whose example codes start with
the short code `"US"` (length ≤ 3, a CountryTable key); and under a world
whose library access and HTTP requests raise, every one of the ten
content operations returns its structured conversion — empty collection,
descriptive string, or error-carrying result — rather than propagating
the exception. -/
theorem error_boundary (country : String) (e : UnsupportedLocale)
    (hres : resolve_country_to_language country = .error e)
    (hc : country ≠ "") (language : String) (enable_cache : Bool)
    (access_token : Option String) (self : WikipediaClient) (w : LibWorld)
    (net : ApiRequest → SearchOutcome) (cnet : ApiRequest → CoordOutcome)
    (title query section_title : String) (topic : Option String)
    (limit max_length count : Int) (m : String)
    (hw : w title = .exn m) (hnet : ∀ r, net r = .exn m)
    (hcnet : ∀ r, cnet r = .exn m) :
    WikipediaClient.init language (some country) enable_cache access_token =
      .error e ∧
    e.message = "Unsupported country/locale: '" ++ country ++
      ("'. Supported country codes include: US, USA, UK, GB, CA, AU, NZ, " ++
       "IE, ZA, CN. Use --language parameter for direct language codes instead.") ∧
    List.IsInfix country.data e.message.data ∧
    (("US" : String).length ≤ 3 ∧ tblGet COUNTRY_TO_LANGUAGE "US" = some "en" ∧
      List.IsInfix ("US" : String).data e.message.data) ∧
    (search self net query limit).1 = [] ∧
    get_article self w title = .notFound title m ∧
    get_summary self w title =
      "Error retrieving summary for '" ++ title ++ "': " ++ m ∧
    get_sections self w title = [] ∧
    get_links self w title = [] ∧
    get_related_topics self w title limit = [] ∧
    summarize_for_query self w title query max_length =
      "Error generating query-focused summary for '" ++ title ++ "': " ++ m ∧
    summarize_section self w title section_title max_length =
      "Error summarizing section '" ++ section_title ++ "': " ++ m ∧
    extract_facts self w title topic count =
      ["Error extracting key facts for '" ++ title ++ "': " ++ m] ∧
    get_coordinates self cnet title = .failed title m := by
  have hmsg : e.message = "Unsupported country/locale: '" ++ country ++
      ("'. Supported country codes include: US, USA, UK, GB, CA, AU, NZ, " ++
       "IE, ZA, CN. Use --language parameter for direct language codes instead.") := by
    cases h1 : tblGet COUNTRY_TO_LANGUAGE (pyStrip (pyUpper country)) with
    | some v => simp [resolve_country_to_language, h1] at hres
    | none =>
    cases h2 : tblGet COUNTRY_TO_LANGUAGE (pyStrip (pyTitle country)) with
    | some v => simp [resolve_country_to_language, h1, h2] at hres
    | none =>
    cases h3 : tblGet COUNTRY_TO_LANGUAGE country with
    | some v => simp [resolve_country_to_language, h1, h2, h3] at hres
    | none =>
      simp only [resolve_country_to_language, h1, h2, h3,
        Except.error.injEq] at hres
      subst hres
      simp only [String.append_assoc]
      rfl
  refine ⟨?_, hmsg, ?_, ⟨by decide, by rfl, ?_⟩, ?_, ?_, ?_, ?_, ?_, ?_, ?_, ?_, ?_, ?_⟩
  · simp [WikipediaClient.init, hc, hres]
  · refine ⟨("Unsupported country/locale: '" : String).data,
      ("'. Supported country codes include: US, USA, UK, GB, CA, AU, NZ, " ++
       "IE, ZA, CN. Use --language parameter for direct language codes instead." :
        String).data, ?_⟩
    rw [hmsg]
    simp [String.data_append, List.append_assoc]
  · refine ⟨("Unsupported country/locale: '" : String).data ++ country.data ++
      ("'. Supported country codes include: " : String).data,
      (", USA, UK, GB, CA, AU, NZ, " ++
       "IE, ZA, CN. Use --language parameter for direct language codes instead." :
        String).data, ?_⟩
    rw [hmsg]
    simp only [String.data_append, List.append_assoc]
    rfl
  · cases hreq : search_request self query limit with
    | none => simp [search, hreq]
    | some req => simp [search, hreq, hnet req]
  · simp [get_article, hw]
  · simp [get_summary, hw]
  · simp [get_sections, hw]
  · simp [get_links, hw]
  · simp [get_related_topics, hw]
  · simp [summarize_for_query, hw]
  · simp [summarize_section, hw]
  · simp [extract_facts, hw]
  · simp [get_coordinates, hcnet _]

/-- Witness for C4: construction with the unsupported country
`"INVALID"` returns the `UnsupportedLocale` error synchronously. -/
theorem error_boundary_witness :
    WikipediaClient.init "en" (some "INVALID") false none =
      .error ⟨"Unsupported country/locale: 'INVALID'. Supported country " ++
        "codes include: US, USA, UK, GB, CA, AU, NZ, IE, ZA, CN. " ++
        "Use --language parameter for direct language codes instead."⟩ :=
  (error_boundary "INVALID"
    ⟨"Unsupported country/locale: 'INVALID'. Supported country " ++
      "codes include: US, USA, UK, GB, CA, AU, NZ, IE, ZA, CN. " ++
      "Use --language parameter for direct language codes instead."⟩
    (by rfl) (by decide) "en" false none clientEn (fun _ => .exn "boom")
    (fun _ => .exn "boom") (fun _ => .exn "boom") "T" "q" "s" none 1 1 1 "boom"
    rfl (fun _ => rfl) (fun _ => rfl)).1

/-! ### C7: per-operation LRU caching -/

/-- A cache is sound for `f` when every stored entry is `f` of its key. -/
def CacheSound [DecidableEq κ] (f : κ → ν) (cache : List (κ × ν)) : Prop :=
  ∀ p ∈ cache, p.2 = f p.1

theorem lruFind_sound [DecidableEq κ] (f : κ → ν) (cache : List (κ × ν))
    (k : κ) (v : ν) (hs : CacheSound f cache) (h : lruFind cache k = some v) :
    v = f k := by
  induction cache with
  | nil => simp [lruFind] at h
  | cons p t ih =>
    obtain ⟨k', v'⟩ := p
    by_cases hk : k' = k
    · simp only [lruFind, if_pos hk, Option.some.injEq] at h
      subst hk
      rw [← h]
      exact hs (k', v') (List.mem_cons_self _ _)
    · simp only [lruFind, if_neg hk] at h
      exact ih (fun p hp => hs p (List.mem_cons_of_mem _ hp)) h

/-- After any call through the cache wrapper, an immediate second call
with the same key returns the identical value and invokes the underlying
operation zero times. -/
theorem lru_cached_second_call [DecidableEq κ] (f : κ → ν)
    (cache : List (κ × ν)) (k : κ) :
    (lru_cached f (lru_cached f cache k).2.1 k).1 =
      (lru_cached f cache k).1 ∧
    (lru_cached f (lru_cached f cache k).2.1 k).2.2 = 0 := by
  unfold lru_cached
  cases h : lruFind cache k with
  | some v => simp [lruFind]
  | none =>
    have htake : ((k, f k) :: cache).take 128 = (k, f k) :: cache.take 127 := rfl
    simp [htake, lruFind]

/-- A sound cache stays sound and returns the underlying value. -/
theorem lru_cached_sound [DecidableEq κ] (f : κ → ν) (cache : List (κ × ν))
    (k : κ) (hs : CacheSound f cache) :
    (lru_cached f cache k).1 = f k ∧
    CacheSound f (lru_cached f cache k).2.1 := by
  unfold lru_cached
  cases h : lruFind cache k with
  | some v =>
    refine ⟨lruFind_sound f cache k v hs h, fun p hp => ?_⟩
    rcases List.mem_cons.mp hp with rfl | hp'
    · exact lruFind_sound f cache k v hs h
    · exact hs p (List.mem_of_mem_filter hp')
  | none =>
    refine ⟨rfl, fun p hp => ?_⟩
    rcases List.mem_cons.mp (List.mem_of_mem_take hp) with rfl | hp'
    · rfl
    · exact hs p hp'

/-- Removing a found key's entries strictly shrinks the cache. -/
theorem lruFind_filter_lt [DecidableEq κ] (cache : List (κ × ν)) (k : κ)
    (v : ν) (h : lruFind cache k = some v) :
    (cache.filter (fun p => p.1 != k)).length < cache.length := by
  induction cache with
  | nil => simp [lruFind] at h
  | cons p t ih =>
    obtain ⟨k', v'⟩ := p
    by_cases hk : k' = k
    · subst hk
      simp only [List.filter_cons, bne_self_eq_false, List.length_cons]
      exact Nat.lt_succ_of_le (List.length_filter_le _ _)
    · simp only [lruFind, if_neg hk] at h
      simp only [List.filter_cons, bne_iff_ne, ne_eq, hk, not_false_eq_true,
        if_true, List.length_cons]
      exact Nat.succ_lt_succ (ih h)

/-- The wrapper never grows a cache past capacity 128. -/
theorem lru_cached_capacity [DecidableEq κ] (f : κ → ν)
    (cache : List (κ × ν)) (k : κ) (h : cache.length ≤ 128) :
    (lru_cached f cache k).2.1.length ≤ 128 := by
  unfold lru_cached
  cases hf : lruFind cache k with
  | some v =>
    have := lruFind_filter_lt cache k v hf
    simp only [List.length_cons]
    omega
  | none => exact List.length_take_le _ _

/-- C7: with `cache_enabled`, each of the ten content operations runs
through its own independent bounded LRU cache of capacity 128 keyed by
its exact argument tuple.  A second identical call returns the identical
result with no second outbound request (for `search`: zero requests; for
the others: zero underlying invocations); with a sound cache the cached
result equals the uncached one, so caching does not change observable
results; the cache never exceeds 128 entries; and a `search` call leaves
the other nine operations' caches untouched. -/
theorem caching_spec (self : WikipediaClient) (net : ApiRequest → SearchOutcome)
    (cnet : ApiRequest → CoordOutcome) (w : LibWorld) (st : ClientCaches)
    (query title section_title : String) (topic : Option String)
    (limit max_length count : Int) :
    ((cached_search self net (cached_search self net st query limit).2.1
        query limit).1 = (cached_search self net st query limit).1 ∧
      (cached_search self net (cached_search self net st query limit).2.1
        query limit).2.2 = 0) ∧
    (CacheSound (fun k => (search self net k.1 k.2).1) st.search_cache →
      (cached_search self net st query limit).1 =
        (search self net query limit).1) ∧
    (CacheSound (fun t => get_summary self w t) st.get_summary_cache →
      (cached_get_summary self w st title).1 = get_summary self w title) ∧
    (st.search_cache.length ≤ 128 →
      (cached_search self net st query limit).2.1.search_cache.length ≤ 128) ∧
    ((cached_search self net st query limit).2.1.get_article_cache =
        st.get_article_cache ∧
      (cached_search self net st query limit).2.1.get_summary_cache =
        st.get_summary_cache ∧
      (cached_search self net st query limit).2.1.get_sections_cache =
        st.get_sections_cache ∧
      (cached_search self net st query limit).2.1.get_links_cache =
        st.get_links_cache ∧
      (cached_search self net st query limit).2.1.get_related_topics_cache =
        st.get_related_topics_cache ∧
      (cached_search self net st query limit).2.1.summarize_for_query_cache =
        st.summarize_for_query_cache ∧
      (cached_search self net st query limit).2.1.summarize_section_cache =
        st.summarize_section_cache ∧
      (cached_search self net st query limit).2.1.extract_facts_cache =
        st.extract_facts_cache ∧
      (cached_search self net st query limit).2.1.get_coordinates_cache =
        st.get_coordinates_cache) ∧
    ((cached_get_article self w (cached_get_article self w st title).2.1
        title).1 = (cached_get_article self w st title).1 ∧
      (cached_get_article self w (cached_get_article self w st title).2.1
        title).2.2 = 0) ∧
    ((cached_get_summary self w (cached_get_summary self w st title).2.1
        title).1 = (cached_get_summary self w st title).1 ∧
      (cached_get_summary self w (cached_get_summary self w st title).2.1
        title).2.2 = 0) ∧
    ((cached_get_sections self w (cached_get_sections self w st title).2.1
        title).1 = (cached_get_sections self w st title).1 ∧
      (cached_get_sections self w (cached_get_sections self w st title).2.1
        title).2.2 = 0) ∧
    ((cached_get_links self w (cached_get_links self w st title).2.1
        title).1 = (cached_get_links self w st title).1 ∧
      (cached_get_links self w (cached_get_links self w st title).2.1
        title).2.2 = 0) ∧
    ((cached_get_related_topics self w (cached_get_related_topics self w st
        title limit).2.1 title limit).1 =
        (cached_get_related_topics self w st title limit).1 ∧
      (cached_get_related_topics self w (cached_get_related_topics self w st
        title limit).2.1 title limit).2.2 = 0) ∧
    ((cached_summarize_for_query self w (cached_summarize_for_query self w st
        title query max_length).2.1 title query max_length).1 =
        (cached_summarize_for_query self w st title query max_length).1 ∧
      (cached_summarize_for_query self w (cached_summarize_for_query self w st
        title query max_length).2.1 title query max_length).2.2 = 0) ∧
    ((cached_summarize_section self w (cached_summarize_section self w st
        title section_title max_length).2.1 title section_title max_length).1 =
        (cached_summarize_section self w st title section_title max_length).1 ∧
      (cached_summarize_section self w (cached_summarize_section self w st
        title section_title max_length).2.1 title section_title
        max_length).2.2 = 0) ∧
    ((cached_extract_facts self w (cached_extract_facts self w st
        title topic count).2.1 title topic count).1 =
        (cached_extract_facts self w st title topic count).1 ∧
      (cached_extract_facts self w (cached_extract_facts self w st
        title topic count).2.1 title topic count).2.2 = 0) ∧
    ((cached_get_coordinates self cnet (cached_get_coordinates self cnet st
        title).2.1 title).1 = (cached_get_coordinates self cnet st title).1 ∧
      (cached_get_coordinates self cnet (cached_get_coordinates self cnet st
        title).2.1 title).2.2 = 0) := by
  refine ⟨?_, ?_, ?_, ?_, ?_, ?_, ?_, ?_, ?_, ?_, ?_, ?_, ?_, ?_⟩
  · simp only [cached_search]
    refine ⟨(lru_cached_second_call _ _ _).1, ?_⟩
    rw [(lru_cached_second_call _ _ _).2, Nat.zero_mul]
  · intro hs
    simp only [cached_search]
    exact (lru_cached_sound _ _ _ hs).1
  · intro hs
    simp only [cached_get_summary]
    exact (lru_cached_sound _ _ _ hs).1
  · intro hlen
    simp only [cached_search]
    exact lru_cached_capacity _ _ _ hlen
  · exact ⟨rfl, rfl, rfl, rfl, rfl, rfl, rfl, rfl, rfl⟩
  · simp only [cached_get_article]
    exact lru_cached_second_call _ _ _
  · simp only [cached_get_summary]
    exact lru_cached_second_call _ _ _
  · simp only [cached_get_sections]
    exact lru_cached_second_call _ _ _
  · simp only [cached_get_links]
    exact lru_cached_second_call _ _ _
  · simp only [cached_get_related_topics]
    exact lru_cached_second_call _ _ _
  · simp only [cached_summarize_for_query]
    exact lru_cached_second_call _ _ _
  · simp only [cached_summarize_section]
    exact lru_cached_second_call _ _ _
  · simp only [cached_extract_facts]
    exact lru_cached_second_call _ _ _
  · simp only [cached_get_coordinates]
    exact lru_cached_second_call _ _ _

/-- Witness for C7: on empty caches the cached `search` result equals the
uncached one. -/
theorem caching_spec_witness :
    (cached_search clientEn (fun _ => .ok []) ClientCaches.empty
      "test query" 10).1 =
      (search clientEn (fun _ => .ok []) "test query" 10).1 :=
  (caching_spec clientEn (fun _ => .ok []) (fun _ => .exn "x")
    (fun _ => .missing) ClientCaches.empty "test query" "T" "s" none
    10 1 1).2.1 (fun p hp => absurd hp (List.not_mem_nil p))

end WikipediaMcp
